import Mathlib

/-!
Shallow embedding of the gstria-ppg-batch-load bulk-load pipeline.

The repository drives PostgreSQL through `psql` subprocesses.  We embed the
pure logic of the Python sources:

* the streaming row counter of `import_single_file_with_lock`
  (src/gstria_ppg_batch_load/main.py and the collatec variant), which reads
  the file in fixed-size chunks, counts newline bytes and patches up a
  missing trailing newline;
* the database operations of src/gstria_ppg_batch_load/db_ops.py
  (`get_partition_name`, `backup_and_drop_indexes`, `reset_primary_key`,
  `restore_indexes`) as functions of an abstract database `Db` that maps each
  SQL text to an outcome, instrumented with an event trace;
* the per-file pipelines `import_single_file_with_lock` of main.py, of the
  collatec main.py and of loader.py, and the batch loop of `cli`.
-/

namespace Gstria

/-! ### Streaming row counter

main.py lines 223-233 (and collatec main.py lines 266-277):

```
has_trailing_newline = False
with open(file_path, 'rb') as f:
    while chunk := f.read(1024 * 1024):
        rows_in_file += chunk.count(b'\n')
        proc.stdin.write(chunk)
        if chunk:
            has_trailing_newline = chunk.endswith(b'\n')
if not has_trailing_newline:
    proc.stdin.write(b'\n')
    rows_in_file += 1
```

A file is a list of bytes (`List Nat`), the newline byte is 10.  `f.read(n)`
successively yields `take n` of the remaining bytes; each read consumes at
least one byte, so the number of iterations is bounded by the file length,
which we use as structural fuel (`readChunksFuel`).  The chunk size is
`csm + 1` so that it is positive by construction; the code's size 1024*1024
is `CHUNK_SIZE`.
-/

def NEWLINE : Nat := 10

def CHUNK_SIZE : Nat := 1024 * 1024

def readChunksFuel (csm : Nat) : Nat → List Nat → List (List Nat)
  | 0, _ => []
  | _ + 1, [] => []
  | n + 1, a :: l => ((a :: l).take (csm + 1)) :: readChunksFuel csm n ((a :: l).drop (csm + 1))

def readChunks (csm : Nat) (file : List Nat) : List (List Nat) :=
  readChunksFuel csm file.length file

/-- One pass of the `while chunk := f.read(...)` loop body over the already
read chunks: accumulate the newline count and track whether the last
nonempty chunk ended with a newline byte. -/
def streamLoop : List (List Nat) → Nat → Bool → Nat × Bool
  | [], rows, flag => (rows, flag)
  | c :: cs, rows, flag =>
      streamLoop cs (rows + c.count NEWLINE)
        (if c.isEmpty then flag else c.getLast? == some NEWLINE)

/-- `rows_in_file` as computed by the Python loop with chunk size `csm + 1`:
count newlines chunk by chunk, then add one when the file did not end with a
newline (the code also appends a newline byte to the COPY payload then). -/
def rowsInFile (csm : Nat) (file : List Nat) : Nat :=
  let p := streamLoop (readChunks csm file) 0 false
  if p.2 then p.1 else p.1 + 1

/-- The row count main.py reports, with the code's chunk size of 1024*1024
(`CHUNK_SIZE - 1 + 1`). -/
def rowsReported (file : List Nat) : Nat := rowsInFile (CHUNK_SIZE - 1) file

theorem getLast?_append_right {α : Type} (l₁ l₂ : List α) (h : l₂ ≠ []) :
    (l₁ ++ l₂).getLast? = l₂.getLast? := by
  induction l₁ with
  | nil => rfl
  | cons a l ih =>
      rw [List.cons_append]
      rw [List.getLast?_cons]
      rw [ih]
      cases l₂ with
      | nil => exact absurd rfl h
      | cons b t =>
          rw [List.getLast?_cons]
          cases h' : (t.getLast?) <;> simp [List.getLast?_cons, h']

theorem readChunksFuel_nil (csm n : Nat) : readChunksFuel csm n [] = [] := by
  cases n <;> rfl

theorem readChunksFuel_spec (csm : Nat) :
    ∀ (n : Nat) (file : List Nat), file.length ≤ n → file ≠ [] →
    ∀ (r : Nat) (f : Bool),
      streamLoop (readChunksFuel csm n file) r f =
        (r + file.count NEWLINE, file.getLast? == some NEWLINE) := by
  intro n
  induction n with
  | zero =>
      intro file hlen hne r f
      cases file with
      | nil => exact absurd rfl hne
      | cons a l => simp at hlen
  | succ m ih =>
      intro file hlen hne r f
      cases file with
      | nil => exact absurd rfl hne
      | cons a l =>
          rw [readChunksFuel]
          have hck : ((a :: l).take (csm + 1)).isEmpty = false := by
            rw [List.take_succ_cons]
            rfl
          rw [streamLoop, hck]
          simp only [Bool.false_eq_true, if_false]
          by_cases hrest : (a :: l).drop (csm + 1) = []
          · rw [hrest]
            have htake : (a :: l).take (csm + 1) = a :: l := by
              apply List.take_of_length_le
              have := List.drop_eq_nil_iff.mp hrest
              omega
            rw [htake, readChunksFuel_nil, streamLoop]
          · have hlen' : ((a :: l).drop (csm + 1)).length ≤ m := by
              rw [List.length_drop]
              simp only [List.length_cons] at hlen ⊢
              omega
            rw [ih _ hlen' hrest]
            have hsplit : (a :: l).take (csm + 1) ++ (a :: l).drop (csm + 1) = a :: l :=
              List.take_append_drop _ _
            rw [Prod.mk.injEq]
            constructor
            · have hcount :
                  ((a :: l).take (csm + 1)).count NEWLINE
                    + ((a :: l).drop (csm + 1)).count NEWLINE = (a :: l).count NEWLINE := by
                rw [← List.count_append, hsplit]
              omega
            · conv_rhs => rw [← hsplit]
              rw [getLast?_append_right _ _ hrest]

theorem rowsInFile_spec (csm : Nat) (file : List Nat) (hne : file ≠ []) :
    rowsInFile csm file =
      file.count NEWLINE + (if file.getLast? = some NEWLINE then 0 else 1) := by
  unfold rowsInFile readChunks
  rw [readChunksFuel_spec csm file.length file (le_refl _) hne 0 false]
  by_cases h : file.getLast? = some NEWLINE
  · simp [h]
  · simp [h]

/-! ### Python string primitives

`str.strip()`, `str.split('\n')`, `str.split('|', 1)` and
`str.replace('"', '')` on the psql stdout, as the Python code uses them. -/

def isPyWs (c : Char) : Bool :=
  c = ' ' || c = '\t' || c = '\n' || c = '\r' || c = '\x0b' || c = '\x0c'

/-- Python `s.strip()`: drop whitespace from both ends. -/
def pyStrip (s : String) : String :=
  ((s.toList.dropWhile isPyWs).reverse.dropWhile isPyWs).reverse.asString

def splitCharAux (sep : Char) : List Char → List Char → List (List Char)
  | [], acc => [acc.reverse]
  | c :: cs, acc =>
      if c = sep then acc.reverse :: splitCharAux sep cs []
      else splitCharAux sep cs (c :: acc)

/-- Python `s.split('\n')` (keeps empty pieces; `"".split` is `[""]`). -/
def splitNl (s : String) : List String :=
  (splitCharAux '\n' s.toList []).map List.asString

/-- Python `s.split('|', 1)`: `none` when the line holds no bar (then
`len(parts) < 2` in the code), otherwise the text before and after the first
bar. -/
def splitBarOnce : List Char → Option (List Char × List Char)
  | [] => none
  | c :: cs =>
      if c = '|' then some ([], cs)
      else (splitBarOnce cs).map (fun p => (c :: p.1, p.2))

/-- Python `partition_name_quoted.replace('"', '')`. -/
def stripDoubleQuotes (s : String) : String :=
  (s.toList.filter (fun c => c ≠ '"')).asString

/-! ### The SQL texts the code builds (db_ops.py / main.py f-strings) -/

def getPartitionSql (table : String) : String :=
  "SELECT '\"" ++ table ++ "_wa_' || lpad(value::text, 3, '0') || '\"' " ++
    "FROM \"public\".\"geomesa_wa_seq\" WHERE type_name = '" ++ table ++ "'"

def backupSql (pureName : String) : String :=
  "SELECT i.relname, pg_get_indexdef(ix.indexrelid) " ++
    "FROM pg_index ix " ++
    "JOIN pg_class t ON t.oid = ix.indrelid " ++
    "JOIN pg_class i ON i.oid = ix.indexrelid " ++
    "JOIN pg_namespace n ON n.oid = t.relnamespace " ++
    "WHERE t.relname = '" ++ pureName ++ "' " ++
    "AND n.nspname = 'public' " ++
    "AND ix.indisprimary = 'f';"

def dropIndexSql (idxName : String) : String :=
  "DROP INDEX IF EXISTS \"public\".\"" ++ idxName ++ "\";"

def findPkeySql (pureName : String) : String :=
  "SELECT conname, pg_get_constraintdef(oid) FROM pg_constraint " ++
    "WHERE conrelid = 'public." ++ pureName ++ "'::regclass AND contype = 'p';"

def dropConstraintSql (pureName pkName : String) : String :=
  "ALTER TABLE \"public\".\"" ++ pureName ++ "\" DROP CONSTRAINT IF EXISTS \"" ++
    pkName ++ "\";"

def addConstraintSql (pureName pkName pkDef : String) : String :=
  "ALTER TABLE \"public\".\"" ++ pureName ++ "\" ADD CONSTRAINT \"" ++ pkName ++
    "\" " ++ pkDef ++ ";"

def deleteSql (table : String) : String :=
  "DELETE FROM \"public\".\"" ++ table ++ "\";"

/-! ### Abstract database and event traces

Every statement the code issues goes through `run_sql_command`, a fresh psql
invocation; `Db.runSql` maps the statement text to its outcome (stdout on
success, an error otherwise).  The COPY transfer runs in its own psql
session (`Popen` in main.py, a shell pipeline in loader.py); `Db.transferOk`
is that session's success.  Each embedded function also returns the trace of
what it did: the SQL statements executed, the start of the transfer session,
and each invocation of `restore_indexes` with its argument. -/

inductive ExecResult where
  | ok (stdout : String)
  | err (msg : String)
deriving DecidableEq

def ExecResult.isErr : ExecResult → Bool
  | .ok _ => false
  | .err _ => true

structure Db where
  runSql : String → ExecResult
  transferOk : Bool

inductive Event where
  | sqlExec (sql : String)
  | transferStart
  | restoreCall (sqls : List String)
deriving DecidableEq

def Event.isRestoreCall : Event → Bool
  | .restoreCall _ => true
  | _ => false

/-! ### db_ops.py -/

/-- db_ops.get_partition_name: run the resolution query; raise when the
stripped stdout is empty, otherwise return it. -/
def get_partition_name (db : Db) (table : String) : Except String String :=
  match db.runSql (getPartitionSql table) with
  | .err m => .error m
  | .ok out =>
      if pyStrip out = "" then .error "Empty partition name"
      else .ok (pyStrip out)

/-- The loop of backup_and_drop_indexes over the stdout lines: for each line
with a bar, append the reconstruction statement, then drop the index; a
failing drop raises, losing the accumulated list. -/
def dropLoop (db : Db) : List String → List Event × Except String (List String)
  | [] => ([], .ok [])
  | line :: rest =>
      match splitBarOnce line.toList with
      | none => dropLoop db rest
      | some (nm, df) =>
          let d := dropIndexSql nm.asString
          match db.runSql d with
          | .err m => ([.sqlExec d], .error m)
          | .ok _ =>
              let r := dropLoop db rest
              (.sqlExec d :: r.1,
                match r.2 with
                | .ok l => .ok ((df.asString ++ ";") :: l)
                | .error m => .error m)

/-- db_ops.backup_and_drop_indexes (identical text in main.py and the
collatec main.py): enumerate the non-primary indexes, capture each
reconstruction statement, drop each index, return the statements. -/
def backup_and_drop_indexes (db : Db) (partitionQuoted : String) :
    List Event × Except String (List String) :=
  let q := backupSql (stripDoubleQuotes partitionQuoted)
  match db.runSql q with
  | .err m => ([.sqlExec q], .error m)
  | .ok out =>
      let lines := (splitNl (pyStrip out)).filter (fun l => l ≠ "")
      if lines.isEmpty then ([.sqlExec q], .ok [])
      else
        let r := dropLoop db lines
        (.sqlExec q :: r.1, r.2)

def restoreLoop (db : Db) : List String → List Event × Except String Unit
  | [] => ([], .ok ())
  | s :: rest =>
      match db.runSql s with
      | .err m => ([.sqlExec s], .error m)
      | .ok _ =>
          let r := restoreLoop db rest
          (.sqlExec s :: r.1, r.2)

/-- db_ops.restore_indexes: return at once on an empty list, otherwise replay
each captured statement in order, raising on the first failure.  The
`restoreCall` event records the invocation and its argument. -/
def restore_indexes (db : Db) (sqls : List String) : List Event × Except String Unit :=
  if sqls.isEmpty then ([.restoreCall sqls], .ok ())
  else
    let r := restoreLoop db sqls
    (.restoreCall sqls :: r.1, r.2)

/-- db_ops.reset_primary_key (identical logic in the collatec main.py): look
up the primary-key constraint; return silently when none is found or the
line has no bar; otherwise drop it and immediately recreate it, raising if
either statement fails. -/
def reset_primary_key (db : Db) (partitionQuoted : String) :
    List Event × Except String Unit :=
  let p := stripDoubleQuotes partitionQuoted
  let q := findPkeySql p
  match db.runSql q with
  | .err m => ([.sqlExec q], .error m)
  | .ok out =>
      if pyStrip out = "" then ([.sqlExec q], .ok ())
      else
        match splitBarOnce (pyStrip out).toList with
        | none => ([.sqlExec q], .ok ())
        | some (nm, df) =>
            let d := dropConstraintSql p nm.asString
            match db.runSql d with
            | .err m => ([.sqlExec q, .sqlExec d], .error m)
            | .ok _ =>
                let c := addConstraintSql p nm.asString df.asString
                match db.runSql c with
                | .err m => ([.sqlExec q, .sqlExec d, .sqlExec c], .error m)
                | .ok _ => ([.sqlExec q, .sqlExec d, .sqlExec c], .ok ())

/-! ### Per-file pipelines

`import_single_file_with_lock` of main.py (`importMain`), of the collatec
main.py (`importCollatec`, which inserts the primary-key reset between the
index drop and the transfer), and of loader.py (`importLoader`, parameterized
by `enable_pk_reset`; see its doc comment for the NameError its missing
`time` import raises).  The Python functions return a `CompletedProcess`
whose `args` tags the failing phase and whose `returncode` is 0 on success
and 1 on any failure; main.py additionally returns the counted row number
(0 on every failure before or during the transfer). -/

structure CP where
  args : String
  returncode : Nat
deriving DecidableEq

/-- main.py import_single_file_with_lock.  On a transfer failure the except
block tries `restore_indexes` once (its own failure swallowed by the bare
except) and reports returncode 1 with row count 0; a failure of the final
restore reports returncode 1 but keeps the counted rows. -/
def importMain (db : Db) (file : List Nat) (table : String) :
    List Event × CP × Nat :=
  let q := getPartitionSql table
  match db.runSql q with
  | .err _ => ([.sqlExec q], ⟨"get_partition", 1⟩, 0)
  | .ok out =>
      let partitionName := pyStrip out
      if partitionName = "" then ([.sqlExec q], ⟨"get_partition", 1⟩, 0)
      else
        let b := backup_and_drop_indexes db partitionName
        match b.2 with
        | .error _ => (.sqlExec q :: b.1, ⟨"drop_index", 1⟩, 0)
        | .ok sqls =>
            if db.transferOk then
              let rows := rowsReported file
              let r := restore_indexes db sqls
              match r.2 with
              | .error _ =>
                  (.sqlExec q :: b.1 ++ [.transferStart] ++ r.1,
                    ⟨"restore_index", 1⟩, rows)
              | .ok _ =>
                  (.sqlExec q :: b.1 ++ [.transferStart] ++ r.1, ⟨"psql", 0⟩, rows)
            else
              let r := restore_indexes db sqls
              (.sqlExec q :: b.1 ++ [.transferStart] ++ r.1, ⟨"psql", 1⟩, 0)

/-- collatec main.py import_single_file_with_lock: like `importMain` with the
reset_primary_key step between the index drop and the transfer; when the
reset raises, the code tries to restore the already-dropped auxiliary
indexes and returns before the transfer is started. -/
def importCollatec (db : Db) (file : List Nat) (table : String) :
    List Event × CP × Nat :=
  let q := getPartitionSql table
  match db.runSql q with
  | .err _ => ([.sqlExec q], ⟨"get_partition", 1⟩, 0)
  | .ok out =>
      let partitionName := pyStrip out
      if partitionName = "" then ([.sqlExec q], ⟨"get_partition", 1⟩, 0)
      else
        let b := backup_and_drop_indexes db partitionName
        match b.2 with
        | .error _ => (.sqlExec q :: b.1, ⟨"drop_index", 1⟩, 0)
        | .ok sqls =>
            let pk := reset_primary_key db partitionName
            match pk.2 with
            | .error _ =>
                let r := restore_indexes db sqls
                (.sqlExec q :: b.1 ++ pk.1 ++ r.1, ⟨"reset_pkey", 1⟩, 0)
            | .ok _ =>
                if db.transferOk then
                  let rows := rowsReported file
                  let r := restore_indexes db sqls
                  match r.2 with
                  | .error _ =>
                      (.sqlExec q :: b.1 ++ pk.1 ++ [.transferStart] ++ r.1,
                        ⟨"restore_index", 1⟩, rows)
                  | .ok _ =>
                      (.sqlExec q :: b.1 ++ pk.1 ++ [.transferStart] ++ r.1,
                        ⟨"psql", 0⟩, rows)
                else
                  let r := restore_indexes db sqls
                  (.sqlExec q :: b.1 ++ pk.1 ++ [.transferStart] ++ r.1,
                    ⟨"psql", 1⟩, 0)

/-- loader.py import_single_file_with_lock.  loader.py never imports `time`
(its imports are subprocess, shlex, logging and names from .utils/.db_ops),
so the first statement of the step-2 try block, `t0 = time.time()`
(loader.py:33), raises NameError on every call, before
`backup_and_drop_indexes` is ever invoked.  The `except Exception` at
loader.py:44 catches it with `stored_index_sqls` still the initial `[]`,
calls `restore_indexes([])` (which executes nothing) inside the swallowing
try, and returns the ("index_opt", 1) failure.  The index drop, the
primary-key reset and the shell COPY transfer are unreachable, whatever
`enable_pk_reset` is; only step 1 (partition resolution) can run. -/
def importLoader (db : Db) (table : String) (enablePkReset : Bool) :
    List Event × CP :=
  let q := getPartitionSql table
  match db.runSql q with
  | .err _ => ([.sqlExec q], ⟨"part", 1⟩)
  | .ok out =>
      let partitionName := pyStrip out
      if partitionName = "" then ([.sqlExec q], ⟨"part", 1⟩)
      else
        let r := restore_indexes db []
        (.sqlExec q :: r.1, ⟨"index_opt", 1⟩)

/-! ### The batch loop (main.py cli) -/

inductive BatchResult where
  | fatal (stage : String)
  | report (success fail totalRows : Nat)
deriving DecidableEq

def attemptRC (db : Db) (table : String) (file : List Nat) : Nat :=
  (importMain db file table).2.1.returncode

def attemptRows (db : Db) (table : String) (file : List Nat) : Nat :=
  (importMain db file table).2.2

/-- The per-file loop of cli: a returncode of 0 adds one success and the
reported rows to the tally, anything else adds one failure and nothing
else; the loop always continues with the next file. -/
def cliLoop (db : Db) (table : String) :
    List (List Nat) → Nat → Nat → Nat → Nat × Nat × Nat
  | [], s, f, rows => (s, f, rows)
  | file :: rest, s, f, rows =>
      if attemptRC db table file = 0 then
        cliLoop db table rest (s + 1) f (rows + attemptRows db table file)
      else
        cliLoop db table rest s (f + 1) rows

/-- main.py cli: with `--clean`, a failing DELETE exits the program
(`sys.exit(1)`); an empty file list also exits with status 1; otherwise
every file is processed by the loop and the tallies are reported.  The
final count(1) verification query only logs a warning and is omitted. -/
def cliMain (db : Db) (table : String) (files : List (List Nat)) (clean : Bool) :
    BatchResult :=
  if clean && (db.runSql (deleteSql table)).isErr then .fatal "truncate"
  else if files.isEmpty then .fatal "no_files"
  else
    let t := cliLoop db table files 0 0 0
    .report t.1 t.2.1 t.2.2

/-! ### Trace-shape lemmas -/

theorem dropLoop_events (db : Db) (lines : List String) :
    ∀ e ∈ (dropLoop db lines).1, ∃ s, e = .sqlExec s := by
  induction lines with
  | nil => intro e he; simp [dropLoop] at he
  | cons line rest ih =>
      intro e he
      rw [dropLoop] at he
      split at he
      · exact ih e he
      · dsimp only at he
        split at he
        · simp at he
          exact ⟨_, he⟩
        · simp at he
          rcases he with he | he
          · exact ⟨_, he⟩
          · exact ih e he

theorem backup_events (db : Db) (p : String) :
    ∀ e ∈ (backup_and_drop_indexes db p).1, ∃ s, e = .sqlExec s := by
  intro e he
  rw [backup_and_drop_indexes] at he
  split at he
  · simp at he
    exact ⟨_, he⟩
  · dsimp only at he
    split at he
    · simp at he
      exact ⟨_, he⟩
    · simp at he
      rcases he with he | he
      · exact ⟨_, he⟩
      · exact dropLoop_events db _ e he

theorem reset_events (db : Db) (p : String) :
    ∀ e ∈ (reset_primary_key db p).1, ∃ s, e = .sqlExec s := by
  intro e he
  rw [reset_primary_key] at he
  split at he
  · simp at he
    exact ⟨_, he⟩
  · split at he
    · simp at he
      exact ⟨_, he⟩
    · split at he
      · simp at he
        exact ⟨_, he⟩
      · dsimp only at he
        split at he
        · simp at he
          rcases he with he | he <;> exact ⟨_, he⟩
        · split at he
          · simp at he
            rcases he with he | he | he <;> exact ⟨_, he⟩
          · simp at he
            rcases he with he | he | he <;> exact ⟨_, he⟩

theorem restoreLoop_events (db : Db) (sqls : List String) :
    ∀ e ∈ (restoreLoop db sqls).1, ∃ s, e = .sqlExec s := by
  induction sqls with
  | nil => intro e he; simp [restoreLoop] at he
  | cons s rest ih =>
      intro e he
      rw [restoreLoop] at he
      split at he
      · simp at he
        exact ⟨_, he⟩
      · simp at he
        rcases he with he | he
        · exact ⟨_, he⟩
        · exact ih e he

theorem sqlOnly_countP_restoreCall {tr : List Event}
    (h : ∀ e ∈ tr, ∃ s, e = .sqlExec s) : tr.countP Event.isRestoreCall = 0 := by
  apply List.countP_eq_zero.mpr
  intro e he
  obtain ⟨s, rfl⟩ := h e he
  simp [Event.isRestoreCall]

theorem sqlOnly_count_transferStart {tr : List Event}
    (h : ∀ e ∈ tr, ∃ s, e = .sqlExec s) : tr.count Event.transferStart = 0 := by
  apply List.count_eq_zero.mpr
  intro hmem
  obtain ⟨s, hs⟩ := h _ hmem
  exact Event.noConfusion hs

theorem restore_trace_shape (db : Db) (sqls : List String) :
    (restore_indexes db sqls).1 = .restoreCall sqls :: (restoreLoop db sqls).1 := by
  rw [restore_indexes]
  by_cases h : sqls.isEmpty
  · rw [if_pos h]
    have : sqls = [] := List.isEmpty_iff.mp h
    subst this
    rfl
  · rw [if_neg h]

theorem restore_countP_restoreCall (db : Db) (sqls : List String) :
    (restore_indexes db sqls).1.countP Event.isRestoreCall = 1 := by
  rw [restore_trace_shape, List.countP_cons]
  rw [sqlOnly_countP_restoreCall (restoreLoop_events db sqls)]
  simp [Event.isRestoreCall]

theorem restore_count_transferStart (db : Db) (sqls : List String) :
    (restore_indexes db sqls).1.count Event.transferStart = 0 := by
  rw [restore_trace_shape, List.count_cons]
  rw [sqlOnly_count_transferStart (restoreLoop_events db sqls)]
  simp

/-! ### Branch characterizations of the pipelines -/

theorem importMain_resolution_fail (db : Db) (file : List Nat) (table out : String)
    (h1 : db.runSql (getPartitionSql table) = .ok out)
    (h2 : pyStrip out = "") :
    importMain db file table =
      ([.sqlExec (getPartitionSql table)], ⟨"get_partition", 1⟩, 0) := by
  unfold importMain
  dsimp only
  rw [h1]
  dsimp only
  rw [if_pos h2]

theorem importMain_backup_fail (db : Db) (file : List Nat) (table out m : String)
    (h1 : db.runSql (getPartitionSql table) = .ok out)
    (h2 : pyStrip out ≠ "")
    (h3 : (backup_and_drop_indexes db (pyStrip out)).2 = .error m) :
    importMain db file table =
      (.sqlExec (getPartitionSql table) :: (backup_and_drop_indexes db (pyStrip out)).1,
        ⟨"drop_index", 1⟩, 0) := by
  unfold importMain
  dsimp only
  rw [h1]
  dsimp only
  rw [if_neg h2, h3]

theorem importMain_transfer_fail (db : Db) (file : List Nat) (table out : String)
    (sqls : List String)
    (h1 : db.runSql (getPartitionSql table) = .ok out)
    (h2 : pyStrip out ≠ "")
    (h3 : (backup_and_drop_indexes db (pyStrip out)).2 = .ok sqls)
    (h4 : db.transferOk = false) :
    importMain db file table =
      (.sqlExec (getPartitionSql table) :: (backup_and_drop_indexes db (pyStrip out)).1
          ++ [.transferStart] ++ (restore_indexes db sqls).1, ⟨"psql", 1⟩, 0) := by
  unfold importMain
  dsimp only
  rw [h1]
  dsimp only
  rw [if_neg h2, h3]
  dsimp only
  rw [h4]
  rfl

theorem importMain_restore_fail (db : Db) (file : List Nat) (table out m : String)
    (sqls : List String)
    (h1 : db.runSql (getPartitionSql table) = .ok out)
    (h2 : pyStrip out ≠ "")
    (h3 : (backup_and_drop_indexes db (pyStrip out)).2 = .ok sqls)
    (h4 : db.transferOk = true)
    (h5 : (restore_indexes db sqls).2 = .error m) :
    importMain db file table =
      (.sqlExec (getPartitionSql table) :: (backup_and_drop_indexes db (pyStrip out)).1
          ++ [.transferStart] ++ (restore_indexes db sqls).1,
        ⟨"restore_index", 1⟩, rowsReported file) := by
  unfold importMain
  dsimp only
  rw [h1]
  dsimp only
  rw [if_neg h2, h3]
  dsimp only
  rw [if_pos h4]
  rw [h5]

theorem importLoader_resolved (db : Db) (table out : String)
    (enablePkReset : Bool)
    (h1 : db.runSql (getPartitionSql table) = .ok out)
    (h2 : pyStrip out ≠ "") :
    importLoader db table enablePkReset =
      ([.sqlExec (getPartitionSql table), .restoreCall []], ⟨"index_opt", 1⟩) := by
  unfold importLoader
  dsimp only
  rw [h1]
  dsimp only
  rw [if_neg h2]
  rfl

theorem importCollatec_backup_fail (db : Db) (file : List Nat) (table out m : String)
    (h1 : db.runSql (getPartitionSql table) = .ok out)
    (h2 : pyStrip out ≠ "")
    (h3 : (backup_and_drop_indexes db (pyStrip out)).2 = .error m) :
    importCollatec db file table =
      (.sqlExec (getPartitionSql table) :: (backup_and_drop_indexes db (pyStrip out)).1,
        ⟨"drop_index", 1⟩, 0) := by
  unfold importCollatec
  dsimp only
  rw [h1]
  dsimp only
  rw [if_neg h2, h3]

theorem importCollatec_pk_fail (db : Db) (file : List Nat) (table out m : String)
    (sqls : List String)
    (h1 : db.runSql (getPartitionSql table) = .ok out)
    (h2 : pyStrip out ≠ "")
    (h3 : (backup_and_drop_indexes db (pyStrip out)).2 = .ok sqls)
    (h5 : (reset_primary_key db (pyStrip out)).2 = .error m) :
    importCollatec db file table =
      (.sqlExec (getPartitionSql table) :: (backup_and_drop_indexes db (pyStrip out)).1
          ++ (reset_primary_key db (pyStrip out)).1 ++ (restore_indexes db sqls).1,
        ⟨"reset_pkey", 1⟩, 0) := by
  unfold importCollatec
  dsimp only
  rw [h1]
  dsimp only
  rw [if_neg h2, h3]
  dsimp only
  rw [h5]

theorem importCollatec_pk_ok (db : Db) (file : List Nat) (table out : String)
    (sqls : List String)
    (h1 : db.runSql (getPartitionSql table) = .ok out)
    (h2 : pyStrip out ≠ "")
    (h3 : (backup_and_drop_indexes db (pyStrip out)).2 = .ok sqls)
    (h5 : (reset_primary_key db (pyStrip out)).2 = .ok ()) :
    importCollatec db file table =
      (.sqlExec (getPartitionSql table) :: (backup_and_drop_indexes db (pyStrip out)).1
          ++ (reset_primary_key db (pyStrip out)).1 ++ [.transferStart]
          ++ (restore_indexes db sqls).1,
        (if db.transferOk then
            (if (restore_indexes db sqls).2.isOk then (⟨"psql", 0⟩ : CP)
             else ⟨"restore_index", 1⟩)
          else ⟨"psql", 1⟩),
        (if db.transferOk then rowsReported file else 0)) := by
  unfold importCollatec
  dsimp only
  rw [h1]
  dsimp only
  rw [if_neg h2, h3]
  dsimp only
  rw [h5]
  dsimp only
  cases h4 : db.transferOk with
  | false => rfl
  | true =>
      cases hr : (restore_indexes db sqls).2 with
      | error m => simp [hr, Except.isOk, Except.toBool]
      | ok u => simp [hr, Except.isOk, Except.toBool]

/-! ### The cli tally -/

theorem cliLoop_spec (db : Db) (table : String) (files : List (List Nat)) :
    ∀ s f rows,
      cliLoop db table files s f rows =
        (s + files.countP (fun fl => attemptRC db table fl == 0),
         f + files.countP (fun fl => !(attemptRC db table fl == 0)),
         rows + ((files.filter (fun fl => attemptRC db table fl == 0)).map
             (attemptRows db table)).sum) := by
  induction files with
  | nil => intro s f rows; simp [cliLoop]
  | cons file rest ih =>
      intro s f rows
      rw [cliLoop]
      by_cases h : attemptRC db table file = 0
      · rw [if_pos h, ih]
        have hb : (attemptRC db table file == 0) = true := by simp [h]
        simp [List.countP_cons, List.filter_cons, hb, Prod.ext_iff]
        all_goals omega
      · rw [if_neg h, ih]
        have hb : (attemptRC db table file == 0) = false := by simp [h]
        simp [List.countP_cons, List.filter_cons, hb, Prod.ext_iff]
        all_goals omega

/-! ### The partition-name query

`get_partition_name` builds the SQL

```
SELECT '"<table>_wa_' || lpad(value::text, 3, '0') || '"'
FROM "public"."geomesa_wa_seq" WHERE type_name = '<table>'
```

whose semantics (modelled from that SQL text and psql -tA output
conventions) is: no matching sequence record gives empty stdout, a record
with value v gives the quoted name with `lpad(v::text, 3, '0')` — left-pad
with zeros to width 3, truncating to the first 3 characters when longer —
followed by a newline. -/

def lpad (s : String) (n : Nat) (fill : Char) : String :=
  if n ≤ s.length then (s.toList.take n).asString
  else ((List.replicate (n - s.length) fill) ++ s.toList).asString

def seqQueryStdout (table : String) : Option Nat → String
  | none => ""
  | some v => "\"" ++ table ++ "_wa_" ++ lpad (Nat.repr v) 3 '0' ++ "\"" ++ "\n"

/-! ### Claims -/

/-- C3: the claim says a zero-byte file yields a successful load attempt with
row count 0, but the code reports 1: on an empty file the read loop never
runs, `has_trailing_newline` stays False, and the fixup both appends a
newline byte to the COPY payload and increments the count — so `rows_in_file`
is 1 for every chunk size, contradicting the claimed 0. -/
theorem C3_zero_byte_file_counts_one_row :
    rowsReported [] = 1 ∧ ∀ csm, rowsInFile csm [] = 1 :=
  ⟨rfl, fun _ => rfl⟩

/-- C4: for every nonempty file, the reported row count is the number of
newline bytes plus one when the last byte is not a newline, and exactly the
number of newline bytes when it is.  The third conjunct states this for
every chunk size (`rowsInFile csm` streams in chunks of `csm + 1` bytes), so
in particular a chunk boundary coinciding with a newline cannot change the
count; `rowsReported` is the code's fixed 1 MiB chunk size. -/
theorem C4_row_count_exact (file : List Nat) (hne : file ≠ []) :
    (file.getLast? ≠ some NEWLINE → rowsReported file = file.count NEWLINE + 1)
    ∧ (file.getLast? = some NEWLINE → rowsReported file = file.count NEWLINE)
    ∧ ∀ csm, rowsInFile csm file =
        file.count NEWLINE + (if file.getLast? = some NEWLINE then 0 else 1) := by
  refine ⟨?_, ?_, fun csm => rowsInFile_spec csm file hne⟩
  · intro h
    rw [rowsReported, rowsInFile_spec _ _ hne, if_neg h]
  · intro h
    rw [rowsReported, rowsInFile_spec _ _ hne, if_pos h]
    omega

/-- C4 witness: the 3-byte file `h\ni` (no trailing newline) reports 2 rows;
with chunk size 2 (`rowsInFile 1`) the file `h\ni\n`, whose first chunk
boundary falls exactly on the newline, reports 2 rows. -/
theorem C4_row_count_exact_witness :
    (([104, 10, 105] : List Nat) ≠ [] ∧ rowsReported [104, 10, 105] = 2)
    ∧ rowsInFile 1 [104, 10, 105, 10] = 2 := by
  refine ⟨⟨by decide, ?_⟩, ?_⟩
  · rw [(C4_row_count_exact [104, 10, 105] (by decide)).1 (by decide)]
    decide
  · rw [(C4_row_count_exact [104, 10, 105, 10] (by decide)).2.2 1]
    decide

/-- C9: when the enumeration query reports no auxiliary indexes (no nonempty
stdout lines), `backup_and_drop_indexes` returns the empty snapshot — not an
error — and executes nothing beyond the enumeration query itself; and
`restore_indexes` on the empty snapshot returns at once, executing no SQL
statement at all. -/
theorem C9_empty_snapshot_noop (db : Db) (pq out : String)
    (h : db.runSql (backupSql (stripDoubleQuotes pq)) = .ok out)
    (hl : (splitNl (pyStrip out)).filter (fun l => l ≠ "") = []) :
    backup_and_drop_indexes db pq = ([.sqlExec (backupSql (stripDoubleQuotes pq))], .ok [])
    ∧ restore_indexes db [] = ([.restoreCall []], .ok ()) := by
  constructor
  · unfold backup_and_drop_indexes
    dsimp only
    rw [h]
    dsimp only
    rw [hl]
    rfl
  · rfl

/-- C9 witness: a database whose enumeration query returns a bare newline. -/
def dbC9 : Db := ⟨fun _ => .ok "\n", true⟩

theorem C9_empty_snapshot_noop_witness :
    backup_and_drop_indexes dbC9 "\"trips_wa_007\"" =
        ([.sqlExec (backupSql "trips_wa_007")], .ok [])
    ∧ restore_indexes dbC9 [] = ([.restoreCall []], .ok ()) :=
  C9_empty_snapshot_noop dbC9 "\"trips_wa_007\"" "\n" rfl rfl

/-- C8: partition resolution.  With a sequence record of value 7 for logical
table `trips`, the query output is the quoted, fixed-width zero-padded name
and `get_partition_name` returns `"trips_wa_007"` (quotes stripped:
`trips_wa_007`); `lpad` pads to width 3 with zeros.  With no sequence record
the query output is empty and resolution fails; so does any empty stripped
output, and in that case main.py stops the file at once: the attempt returns
returncode 1 having executed nothing but the resolution query. -/
theorem C8_partition_resolution (db1 db2 db3 : Db) (file : List Nat)
    (table t3 out3 : String)
    (h7 : db1.runSql (getPartitionSql "trips") = .ok (seqQueryStdout "trips" (some 7)))
    (hnone : db2.runSql (getPartitionSql table) = .ok (seqQueryStdout table none))
    (hempty : db3.runSql (getPartitionSql t3) = .ok out3)
    (h3e : pyStrip out3 = "") :
    (get_partition_name db1 "trips" = .ok "\"trips_wa_007\""
      ∧ stripDoubleQuotes "\"trips_wa_007\"" = "trips_wa_007"
      ∧ lpad (Nat.repr 7) 3 '0' = "007")
    ∧ get_partition_name db2 table = .error "Empty partition name"
    ∧ (get_partition_name db3 t3 = .error "Empty partition name"
      ∧ importMain db3 file t3 = ([.sqlExec (getPartitionSql t3)], ⟨"get_partition", 1⟩, 0)) := by
  refine ⟨⟨?_, rfl, rfl⟩, ?_, ?_, ?_⟩
  · unfold get_partition_name
    rw [h7]
    rfl
  · unfold get_partition_name
    rw [hnone]
    rfl
  · unfold get_partition_name
    rw [hempty]
    dsimp only
    rw [if_pos h3e]
  · exact importMain_resolution_fail db3 file t3 out3 hempty h3e

def dbSeq7 : Db := ⟨fun s =>
  if s = getPartitionSql "trips" then .ok (seqQueryStdout "trips" (some 7))
  else .ok "", true⟩

def dbSeqNone : Db := ⟨fun _ => .ok "", true⟩

theorem C8_partition_resolution_witness :
    (get_partition_name dbSeq7 "trips" = .ok "\"trips_wa_007\""
      ∧ stripDoubleQuotes "\"trips_wa_007\"" = "trips_wa_007"
      ∧ lpad (Nat.repr 7) 3 '0' = "007")
    ∧ get_partition_name dbSeqNone "trips" = .error "Empty partition name"
    ∧ (get_partition_name dbSeqNone "other" = .error "Empty partition name"
      ∧ importMain dbSeqNone [] "other" =
          ([.sqlExec (getPartitionSql "other")], ⟨"get_partition", 1⟩, 0)) :=
  C8_partition_resolution dbSeq7 dbSeqNone dbSeqNone [] "trips" "other" ""
    (by rfl) (by rfl) (by rfl) (by rfl)

/-- C1: when the transfer session fails after the auxiliary indexes were
dropped (resolution and backup succeeded, `transferOk` is false), main.py's
except block attempts index restoration exactly once — the trace holds
exactly one `restoreCall` — and then reports the file's attempt as failed
(returncode 1).  loader.py also performs exactly one restore invocation per
attempt and reports returncode 1 (every call fails through its except block
— see `importLoader` — which restores once, `stored_index_sqls` being []). -/
theorem C1_transfer_fail_restores_once (db : Db) (file : List Nat)
    (table out : String) (sqls : List String)
    (h1 : db.runSql (getPartitionSql table) = .ok out)
    (h2 : pyStrip out ≠ "")
    (h3 : (backup_and_drop_indexes db (pyStrip out)).2 = .ok sqls)
    (h4 : db.transferOk = false) :
    ((importMain db file table).2.1.returncode = 1
      ∧ (importMain db file table).1.countP Event.isRestoreCall = 1)
    ∧ ((importLoader db table false).2.returncode = 1
      ∧ (importLoader db table false).1.countP Event.isRestoreCall = 1) := by
  rw [importMain_transfer_fail db file table out sqls h1 h2 h3 h4,
      importLoader_resolved db table out false h1 h2]
  refine ⟨⟨rfl, ?_⟩, rfl, rfl⟩
  simp [List.countP_cons, List.countP_append,
    sqlOnly_countP_restoreCall (backup_events db (pyStrip out)),
    restore_countP_restoreCall db sqls, Event.isRestoreCall]

def dbC1 : Db := ⟨fun s =>
  if s = getPartitionSql "trips" then .ok "\"trips_wa_007\"\n"
  else if s = backupSql "trips_wa_007" then
    .ok "idx_a|CREATE INDEX idx_a ON public.trips_wa_007 USING btree (dtg)\n"
  else .ok "", false⟩

set_option maxRecDepth 16384 in
theorem C1_transfer_fail_restores_once_witness :
    ((importMain dbC1 [] "trips").2.1.returncode = 1
      ∧ (importMain dbC1 [] "trips").1.countP Event.isRestoreCall = 1)
    ∧ ((importLoader dbC1 "trips" false).2.returncode = 1
      ∧ (importLoader dbC1 "trips" false).1.countP Event.isRestoreCall = 1) :=
  C1_transfer_fail_restores_once dbC1 [] "trips" "\"trips_wa_007\"\n"
    ["CREATE INDEX idx_a ON public.trips_wa_007 USING btree (dtg);"]
    (by rfl) (by decide) (by rfl) rfl

def dbC2 : Db := ⟨fun s =>
  if s = getPartitionSql "trips" then .ok "\"trips_wa_007\"\n"
  else if s = backupSql "trips_wa_007" then
    .ok ("idx_a|CREATE INDEX idx_a ON public.trips_wa_007 USING btree (dtg)\n"
      ++ "idx_b|CREATE INDEX idx_b ON public.trips_wa_007 USING btree (taxi_id)\n")
  else if s = dropIndexSql "idx_b" then .err "drop failed"
  else .ok "", true⟩

set_option maxRecDepth 32768 in
/-- C2 counterexample: a concrete run with two auxiliary indexes where the
second drop fails.  The backup step executed the drop of idx_a before
failing on idx_b (so idx_a is dropped), and idx_a's captured reconstruction
statement was appended to `restore_sqls` before the failure point — yet no
caller passes that partial snapshot to restore: main.py (and the collatec
variant) perform no restore invocation at all and never execute the
captured statement, returning the "drop_index" failure straight away; and
loader.py cannot even reach the suspend step (its `t0 = time.time()` raises
NameError first, `time` being unimported), restoring only the empty
snapshot.  The claim's "the reconstruction statements captured before the
failure point are passed to restore" is false on this input. -/
theorem C2_counterexample_snapshot_discarded :
    (backup_and_drop_indexes dbC2 "\"trips_wa_007\"").2 = .error "drop failed"
    ∧ (backup_and_drop_indexes dbC2 "\"trips_wa_007\"").1 =
        [.sqlExec (backupSql "trips_wa_007"), .sqlExec (dropIndexSql "idx_a"),
         .sqlExec (dropIndexSql "idx_b")]
    ∧ (importMain dbC2 [] "trips").1.countP Event.isRestoreCall = 0
    ∧ (importMain dbC2 [] "trips").1.count
        (Event.sqlExec "CREATE INDEX idx_a ON public.trips_wa_007 USING btree (dtg);") = 0
    ∧ (importMain dbC2 [] "trips").2.1 = ⟨"drop_index", 1⟩
    ∧ (importCollatec dbC2 [] "trips").1.countP Event.isRestoreCall = 0
    ∧ (importLoader dbC2 "trips" false).1 =
        [.sqlExec (getPartitionSql "trips"), .restoreCall []] :=
  ⟨rfl, rfl, rfl, rfl, rfl, rfl, rfl⟩

/-- C2 (amended): when suspend (backup-and-drop) fails partway, the index
drops already executed stay executed and nothing afterwards replays any
captured statement: the partial snapshot is discarded with the raised
exception rather than passed to restore.  main.py and the collatec variant
return the failed attempt ("drop_index", returncode 1) immediately, with no
restore invocation; loader.py never reaches the suspend step at all (its
timing statement raises NameError first) and its except block restores only
the empty snapshot. -/
theorem C2_amended_partial_snapshot_lost (db : Db) (file : List Nat)
    (table out m : String)
    (h1 : db.runSql (getPartitionSql table) = .ok out)
    (h2 : pyStrip out ≠ "")
    (h3 : (backup_and_drop_indexes db (pyStrip out)).2 = .error m) :
    (importMain db file table =
        (.sqlExec (getPartitionSql table) :: (backup_and_drop_indexes db (pyStrip out)).1,
          ⟨"drop_index", 1⟩, 0)
      ∧ (importMain db file table).1.countP Event.isRestoreCall = 0)
    ∧ (importCollatec db file table =
        (.sqlExec (getPartitionSql table) :: (backup_and_drop_indexes db (pyStrip out)).1,
          ⟨"drop_index", 1⟩, 0)
      ∧ (importCollatec db file table).1.countP Event.isRestoreCall = 0)
    ∧ ∀ epk, importLoader db table epk =
        ([.sqlExec (getPartitionSql table), .restoreCall []], ⟨"index_opt", 1⟩) := by
  have hm := importMain_backup_fail db file table out m h1 h2 h3
  have hc := importCollatec_backup_fail db file table out m h1 h2 h3
  refine ⟨⟨hm, ?_⟩, ⟨hc, ?_⟩, fun epk => importLoader_resolved db table out epk h1 h2⟩
  · rw [hm]
    simp [List.countP_cons,
      sqlOnly_countP_restoreCall (backup_events db (pyStrip out)),
      Event.isRestoreCall]
  · rw [hc]
    simp [List.countP_cons,
      sqlOnly_countP_restoreCall (backup_events db (pyStrip out)),
      Event.isRestoreCall]

set_option maxRecDepth 32768 in
theorem C2_amended_partial_snapshot_lost_witness :
    (importMain dbC2 [] "trips" =
        (.sqlExec (getPartitionSql "trips")
            :: (backup_and_drop_indexes dbC2 (pyStrip "\"trips_wa_007\"\n")).1,
          ⟨"drop_index", 1⟩, 0)
      ∧ (importMain dbC2 [] "trips").1.countP Event.isRestoreCall = 0)
    ∧ (importCollatec dbC2 [] "trips" =
        (.sqlExec (getPartitionSql "trips")
            :: (backup_and_drop_indexes dbC2 (pyStrip "\"trips_wa_007\"\n")).1,
          ⟨"drop_index", 1⟩, 0)
      ∧ (importCollatec dbC2 [] "trips").1.countP Event.isRestoreCall = 0)
    ∧ importLoader dbC2 "trips" false =
        ([.sqlExec (getPartitionSql "trips"), .restoreCall []], ⟨"index_opt", 1⟩) := by
  have h := C2_amended_partial_snapshot_lost dbC2 [] "trips" "\"trips_wa_007\"\n"
    "drop failed" (by rfl) (by decide) (by rfl)
  exact ⟨h.1, h.2.1, h.2.2 false⟩

/-- C6: in reorganization mode, when `reset_primary_key` raises (the
primary-key drop or the recreate statement failed), the error reaches the
file boundary before any data transfer: the collatec pipeline reports the
attempt failed at phase reset_pkey, the loader pipeline (enable_pk_reset)
reports it failed at index_opt (failing even earlier — see `importLoader`),
and neither trace holds a `transferStart` — the bulk-copy session is never
started for that file. -/
theorem C6_pk_fail_never_transfers (db : Db) (file : List Nat)
    (table out m : String) (sqls : List String)
    (h1 : db.runSql (getPartitionSql table) = .ok out)
    (h2 : pyStrip out ≠ "")
    (h3 : (backup_and_drop_indexes db (pyStrip out)).2 = .ok sqls)
    (h5 : (reset_primary_key db (pyStrip out)).2 = .error m) :
    ((importCollatec db file table).2.1 = ⟨"reset_pkey", 1⟩
      ∧ (importCollatec db file table).1.count Event.transferStart = 0)
    ∧ ((importLoader db table true).2 = ⟨"index_opt", 1⟩
      ∧ (importLoader db table true).1.count Event.transferStart = 0) := by
  rw [importCollatec_pk_fail db file table out m sqls h1 h2 h3 h5,
      importLoader_resolved db table out true h1 h2]
  refine ⟨⟨rfl, ?_⟩, rfl, rfl⟩
  simp [List.count_cons, List.count_append,
    sqlOnly_count_transferStart (backup_events db (pyStrip out)),
    sqlOnly_count_transferStart (reset_events db (pyStrip out)),
    restore_count_transferStart db sqls]

def dbC6 : Db := ⟨fun s =>
  if s = getPartitionSql "trips" then .ok "\"trips_wa_007\"\n"
  else if s = findPkeySql "trips_wa_007" then .ok "trips_wa_007_pkey|PRIMARY KEY (fid)\n"
  else if s = dropConstraintSql "trips_wa_007" "trips_wa_007_pkey" then .err "drop pk failed"
  else .ok "", true⟩

set_option maxRecDepth 32768 in
theorem C6_pk_fail_never_transfers_witness :
    ((importCollatec dbC6 [] "trips").2.1 = ⟨"reset_pkey", 1⟩
      ∧ (importCollatec dbC6 [] "trips").1.count Event.transferStart = 0)
    ∧ ((importLoader dbC6 "trips" true).2 = ⟨"index_opt", 1⟩
      ∧ (importLoader dbC6 "trips" true).1.count Event.transferStart = 0) :=
  C6_pk_fail_never_transfers dbC6 [] "trips" "\"trips_wa_007\"\n" "drop pk failed" []
    (by rfl) (by decide) (by rfl) (by rfl)

/-- C7: in reorganization mode, when the primary-key lookup succeeds but
finds no constraint (empty stripped output), `reset_primary_key` completes
as a no-op — it returns success having executed nothing beyond the lookup
query, the code merely logging a warning — and the collatec pipeline
proceeds to the transfer phase: its trace holds the `transferStart`. -/
theorem C7_no_pk_noop_proceeds (db : Db) (file : List Nat)
    (table out pkOut : String) (sqls : List String)
    (h1 : db.runSql (getPartitionSql table) = .ok out)
    (h2 : pyStrip out ≠ "")
    (h3 : (backup_and_drop_indexes db (pyStrip out)).2 = .ok sqls)
    (h6 : db.runSql (findPkeySql (stripDoubleQuotes (pyStrip out))) = .ok pkOut)
    (h7 : pyStrip pkOut = "") :
    reset_primary_key db (pyStrip out) =
        ([.sqlExec (findPkeySql (stripDoubleQuotes (pyStrip out)))], .ok ())
    ∧ (importCollatec db file table).1.count Event.transferStart = 1 := by
  have hres : reset_primary_key db (pyStrip out) =
      ([.sqlExec (findPkeySql (stripDoubleQuotes (pyStrip out)))], .ok ()) := by
    unfold reset_primary_key
    dsimp only
    rw [h6]
    dsimp only
    rw [if_pos h7]
  refine ⟨hres, ?_⟩
  have h5 : (reset_primary_key db (pyStrip out)).2 = .ok () := by rw [hres]
  rw [importCollatec_pk_ok db file table out sqls h1 h2 h3 h5]
  simp [List.count_cons, List.count_append, hres,
    sqlOnly_count_transferStart (backup_events db (pyStrip out)),
    restore_count_transferStart db sqls]

set_option maxRecDepth 32768 in
theorem C7_no_pk_noop_proceeds_witness :
    reset_primary_key dbSeq7 (pyStrip "\"trips_wa_007\"\n") =
        ([.sqlExec (findPkeySql (stripDoubleQuotes (pyStrip "\"trips_wa_007\"\n")))], .ok ())
    ∧ (importCollatec dbSeq7 [] "trips").1.count Event.transferStart = 1 :=
  C7_no_pk_noop_proceeds dbSeq7 [] "trips" "\"trips_wa_007\"\n" "" []
    (by rfl) (by decide) (by rfl) (by rfl) (by rfl)

def dbAllOk : Db := ⟨fun _ => .ok "", true⟩

/-- C5 counterexample: with the table-clear step skipped entirely
(--no-clean, so no table-clear failure can exist) and an empty list of input
files, cli still stops the whole batch fatally (sys.exit(1) on finding no
.tbl file) — a batch-fatal stop that is not a table-clear failure, against
the claim's "the only batch-fatal failure is one occurring during the
pre-batch table-clear step". -/
theorem C5_counterexample_no_files_fatal :
    cliMain dbAllOk "trips" [] false = .fatal "no_files"
    ∧ (BatchResult.fatal "no_files" ≠ .fatal "truncate"
      ∧ ∀ s f r, BatchResult.fatal "no_files" ≠ .report s f r) :=
  ⟨rfl, by decide, fun s f r => by simp⟩

/-- C5 (amended): every per-file error is caught at the file boundary and
converted into a failed load attempt, and the batch continues to the next
file in all such cases; the batch-fatal stops are exactly a failure of the
pre-batch table-clear step and the absence of input files.  Whenever the
table-clear step succeeds (or is skipped) and the file list is nonempty, cli
always reaches a report whose tallies cover every file: successes plus
failures equal the number of files, whatever each attempt's outcome. -/
theorem C5_amended_batch_never_aborts (db : Db) (table : String)
    (files : List (List Nat)) (clean : Bool)
    (hf : files ≠ [])
    (ht : clean = true → (db.runSql (deleteSql table)).isErr = false) :
    cliMain db table files clean =
      .report (files.countP (fun fl => attemptRC db table fl == 0))
              (files.countP (fun fl => !(attemptRC db table fl == 0)))
              (((files.filter (fun fl => attemptRC db table fl == 0)).map
                  (attemptRows db table)).sum)
    ∧ files.countP (fun fl => attemptRC db table fl == 0)
        + files.countP (fun fl => !(attemptRC db table fl == 0)) = files.length := by
  constructor
  · unfold cliMain
    have hcl : (clean && (db.runSql (deleteSql table)).isErr) = false := by
      cases clean
      · rfl
      · simp [ht rfl]
    rw [hcl]
    have hie : files.isEmpty = false := by
      cases files with
      | nil => exact absurd rfl hf
      | cons a l => rfl
    simp only [Bool.false_eq_true, if_false, hie]
    rw [cliLoop_spec]
    simp
  · have h := (List.length_eq_countP_add_countP
      (fun fl => attemptRC db table fl == 0) files).symm
    simpa using h

theorem C5_amended_batch_never_aborts_witness :
    cliMain dbAllOk "trips" [[10]] true = .report 0 1 0 := by
  have h := C5_amended_batch_never_aborts dbAllOk "trips" [[10]] true
    (by decide) (fun _ => rfl)
  rw [h.1]
  rfl

/-- C10: a load attempt whose transfer succeeds but whose subsequent index
restoration fails is reported failed — returncode 1 at phase restore_index
(the counted rows are in the returned pair but the returncode is nonzero) —
and cli counts it as a failure: with such a file at the head of the batch,
the reported success count and total-rows sum range over the remaining
files with returncode 0 only, so the failed file's transferred rows are
excluded from both tallies. -/
theorem C10_restore_fail_is_failed_attempt (db : Db) (file : List Nat)
    (table out m : String) (sqls : List String) (rest : List (List Nat))
    (clean : Bool)
    (h1 : db.runSql (getPartitionSql table) = .ok out)
    (h2 : pyStrip out ≠ "")
    (h3 : (backup_and_drop_indexes db (pyStrip out)).2 = .ok sqls)
    (h4 : db.transferOk = true)
    (h5 : (restore_indexes db sqls).2 = .error m)
    (hclean : clean = true → (db.runSql (deleteSql table)).isErr = false) :
    (importMain db file table).2.1 = ⟨"restore_index", 1⟩
    ∧ (importMain db file table).2.2 = rowsReported file
    ∧ cliMain db table (file :: rest) clean =
        .report (rest.countP (fun fl => attemptRC db table fl == 0))
                (1 + rest.countP (fun fl => !(attemptRC db table fl == 0)))
                (((rest.filter (fun fl => attemptRC db table fl == 0)).map
                    (attemptRows db table)).sum) := by
  have him := importMain_restore_fail db file table out m sqls h1 h2 h3 h4 h5
  have hrc : attemptRC db table file = 1 := by
    unfold attemptRC
    rw [him]
  refine ⟨by rw [him], by rw [him], ?_⟩
  unfold cliMain
  have hcl : (clean && (db.runSql (deleteSql table)).isErr) = false := by
    cases clean
    · rfl
    · simp [hclean rfl]
  rw [hcl]
  simp only [Bool.false_eq_true, if_false, List.isEmpty_cons]
  rw [cliLoop]
  rw [if_neg (by rw [hrc]; exact one_ne_zero)]
  rw [cliLoop_spec]
  simp

def dbC10 : Db := ⟨fun s =>
  if s = getPartitionSql "trips" then .ok "\"trips_wa_007\"\n"
  else if s = backupSql "trips_wa_007" then
    .ok "idx_a|CREATE INDEX idx_a ON public.trips_wa_007 USING btree (dtg)\n"
  else if s = "CREATE INDEX idx_a ON public.trips_wa_007 USING btree (dtg);" then
    .err "restore failed"
  else .ok "", true⟩

set_option maxRecDepth 32768 in
theorem C10_restore_fail_is_failed_attempt_witness :
    (importMain dbC10 [104, 10] "trips").2.1 = ⟨"restore_index", 1⟩
    ∧ (importMain dbC10 [104, 10] "trips").2.2 = 1
    ∧ cliMain dbC10 "trips" [[104, 10]] false = .report 0 1 0 := by
  have h := C10_restore_fail_is_failed_attempt dbC10 [104, 10] "trips"
    "\"trips_wa_007\"\n" "restore failed"
    ["CREATE INDEX idx_a ON public.trips_wa_007 USING btree (dtg);"] [] false
    (by rfl) (by decide) (by rfl) rfl (by rfl) (fun hh => Bool.noConfusion hh)
  refine ⟨h.1, ?_, ?_⟩
  · rw [h.2.1]
    rfl
  · rw [h.2.2]
    rfl

end Gstria
